import Mathlib

/-!
Verification development for the raffle-randomizer photo-proxy core.

The repository contains several variants of the same photo proxy; the ones
embedded here are the ones the specification claims refer to:

* `src/kpa_photo_proxy.py` — FastAPI proxy with a TTL cache
  (`_cache_get`, `_cache_put`, `_auth_headers`, `kpa_photo`);
* `src/railway_app.py` — FastAPI proxy without a cache (`get_kpa_photo`);
* `src/kpa_photo_proxy_railway.py` — FastAPI proxy whose cache stores
  `(bytes, timestamp)` only (`get_kpa_photo`);
* `src/kpa_api_server.py` — Flask server (`proxy_kpa_photo`);
* `src/streamlit_csv_raffle.py` — `extract_key_from_tenant_url`.

Conventions of the embedding:

* HTTP bodies are byte lists (`Bytes`); time is `Nat` seconds (Python uses
  `time.time()` floats; every comparison in the source is order-theoretic,
  so a discrete clock is faithful for the stated properties);
* a Python `dict` is an association list with the helpers `dictFind`,
  `dictDrop`, `dictPut`;
* the upstream network is an oracle `Upstream` mapping the requested URL
  and headers to either an HTTP response or an exception from
  `requests.get`;
* FastAPI `HTTPException(status, detail)` is `httpError status`; the
  dynamic `detail` strings are not needed by any claim and are elided;
* each handler returns, besides its response, the number of upstream HTTP
  requests it issued, so that claims about "zero network calls" are
  statable.
-/

namespace RaffleProxy

/-- A byte string (an HTTP body). -/
abbrev Bytes := List Nat

/-- Outbound request headers, in insertion order. -/
abbrev Headers := List (String × String)

/-- An HTTP response as seen by `requests`: final status code after
redirects, the optional `content-type` header, and the body. -/
structure UpstreamResponse where
  status : Nat
  contentType : Option String
  body : Bytes
deriving DecidableEq

/-- Outcome of one `requests.get` call: a response, a `requests.Timeout`,
or another `requests.RequestException` (connection error and the like). -/
inductive FetchOutcome where
  | resp (r : UpstreamResponse)
  | timeout
  | netError
deriving DecidableEq

/-- The upstream network as an oracle: URL and headers in, outcome out. -/
abbrev Upstream := String → Headers → FetchOutcome

/-- The vendor URL template every handler under `src/` substitutes the
key into: `https://mvncorp.kpaehs.com/get-upload?key=<key>`. -/
def kpaUploadUrl (key : String) : String :=
  "https://mvncorp.kpaehs.com/get-upload?key=" ++ key

/-! ### Python dict as an association list -/

/-- `d.get(key)` on a Python dict. -/
def dictFind {α : Type} : List (String × α) → String → Option α
  | [], _ => none
  | (k, v) :: rest, key => if k = key then some v else dictFind rest key

/-- `d.pop(key, None)` / `del d[key]`: remove the entry for `key`. -/
def dictDrop {α : Type} : List (String × α) → String → List (String × α)
  | [], _ => []
  | (k, v) :: rest, key =>
      if k = key then dictDrop rest key else (k, v) :: dictDrop rest key

/-- `d[key] = v`: replace any entry for `key` with the new value. -/
def dictPut {α : Type} (c : List (String × α)) (key : String) (v : α) :
    List (String × α) :=
  dictDrop c key ++ [(key, v)]

/-! ### src/kpa_photo_proxy.py -/

/-- One entry of the module-level `_cache` dict of `kpa_photo_proxy.py`:
`key -> (expiry_ts, bytes, mime)`. -/
structure CacheEntry where
  exp : Nat
  data : Bytes
  mime : String
deriving DecidableEq

/-- The `_cache` dict. -/
abbrev Cache := List (String × CacheEntry)

/-- `_cache_get(key)` at clock `now`: returns the hit (if any) together
with the cache as left after the call (an expired entry is popped on the
read that observes it). -/
def cacheGet (c : Cache) (key : String) (now : Nat) :
    Option (Bytes × String) × Cache :=
  match dictFind c key with
  | none => (none, c)
  | some e =>
      if now > e.exp then (none, dictDrop c key)
      else (some (e.data, e.mime), c)

/-- `_cache_put(key, data, mime)` at clock `now`:
stores `(now + CACHE_TTL_SEC, data, mime)`. -/
def cachePut (c : Cache) (key : String) (data : Bytes) (mime : String)
    (now ttl : Nat) : Cache :=
  dictPut c key ⟨now + ttl, data, mime⟩

/-- `_auth_headers()`: a User-Agent always, an Authorization header when
`KPA_BEARER` is non-empty, a Cookie header when `KPA_COOKIE` is non-empty.
No credential is required: the function never fails. -/
def authHeaders (cookie bearer userAgent : String) : Headers :=
  [("User-Agent", userAgent)]
    ++ (if bearer ≠ "" then [("Authorization", "Bearer " ++ bearer)] else [])
    ++ (if cookie ≠ "" then [("Cookie", cookie)] else [])

/-- The module-level state of `kpa_photo_proxy.py`: the two credential
globals `KPA_COOKIE` and `KPA_BEARER`, the `USER_AGENT`, the env-derived
constant `CACHE_TTL_SEC`, and the `_cache` dict. -/
structure ProcessState where
  cookie : String
  bearer : String
  userAgent : String
  ttl : Nat
  cache : Cache
deriving DecidableEq

/-- The value a request handler produces: either a FastAPI `Response`
with body, media type and the `X-Cache` header, or an `HTTPException`
with the given status (the dynamic `detail` strings are elided). -/
inductive KpaResult where
  | ok (data : Bytes) (mime : String) (cacheStatus : String)
  | httpError (status : Nat)
deriving DecidableEq

/-- Result of one call of the `kpa_photo` handler: the module state after
the call, the response, and how many upstream HTTP requests were issued. -/
structure ServeResult where
  state : ProcessState
  result : KpaResult
  fetches : Nat
deriving DecidableEq

/-- Steps 2 and 3 of the `kpa_photo` handler (the authenticated fetch,
classification, cache store), with `c₁` the cache left by the hit check:

* a `RequestException` from `requests.get` (timeout included) is caught
  and re-raised as `HTTPException 502`;
* status 404 raises `HTTPException 404` (a FastAPI exception, not caught
  by the `except requests.RequestException` clause);
* any other 4xx/5xx status makes `raise_for_status()` raise `HTTPError`,
  which the same `except` clause converts to `HTTPException 502`;
* every remaining response is stored in the cache under the declared
  content type (default `image/jpeg`) and returned with `X-Cache: MISS`.

No credential check and no body inspection happen anywhere. -/
def kpaPhotoFetch (st : ProcessState) (key : String) (now : Nat)
    (upstream : Upstream) (c₁ : Cache) : ServeResult :=
  match upstream (kpaUploadUrl key) (authHeaders st.cookie st.bearer st.userAgent) with
  | .timeout => ⟨{ st with cache := c₁ }, .httpError 502, 1⟩
  | .netError => ⟨{ st with cache := c₁ }, .httpError 502, 1⟩
  | .resp r =>
      if r.status = 404 then ⟨{ st with cache := c₁ }, .httpError 404, 1⟩
      else if 400 ≤ r.status ∧ r.status < 600 then
        ⟨{ st with cache := c₁ }, .httpError 502, 1⟩
      else
        let mime := r.contentType.getD "image/jpeg"
        ⟨{ st with cache := cachePut c₁ key r.body mime now st.ttl },
          .ok r.body mime "MISS", 1⟩

/-- The `kpa_photo` endpoint of `kpa_photo_proxy.py`: a cache hit is
served with `X-Cache: HIT` and no upstream call; otherwise exactly one
authenticated upstream fetch runs (`kpaPhotoFetch`). -/
def kpa_photo (st : ProcessState) (key : String) (now : Nat)
    (upstream : Upstream) : ServeResult :=
  match cacheGet st.cache key now with
  | (some hit, c₁) => ⟨{ st with cache := c₁ }, .ok hit.1 hit.2 "HIT", 0⟩
  | (none, c₁) => kpaPhotoFetch st key now upstream c₁

/-! ### Concrete fixtures for witnesses and counterexamples -/

/-- Leading bytes of a JPEG file (SOI marker + APP0). -/
def jpegBytes : Bytes := [255, 216, 255, 224, 0, 16]

/-- An upstream that always answers 200 with a JPEG body. -/
def upJpeg : Upstream :=
  fun _ _ => .resp ⟨200, some "image/jpeg", jpegBytes⟩

/-- A configured process state with an empty cache. -/
def st0 : ProcessState :=
  ⟨"KPASESSION=abc", "", "WinnersCardBot/1.0", 3600, []⟩

/-! ### String and byte helpers (Python `in`, `startswith`, `lower`) -/

/-- `hay.startswith(needle)` for byte strings. -/
def bytesLead : Bytes → Bytes → Bool
  | [], _ => true
  | _ :: _, [] => false
  | a :: as, b :: bs => a == b && bytesLead as bs

/-- `needle` occurs at the start of `hay` (char lists). -/
def charsLead : List Char → List Char → Bool
  | [], _ => true
  | _ :: _, [] => false
  | a :: as, b :: bs => a == b && charsLead as bs

/-- `needle in hay` for char lists. -/
def charsIn (needle : List Char) : List Char → Bool
  | [] => needle.isEmpty
  | c :: rest => charsLead needle (c :: rest) || charsIn needle rest

/-- The Python membership test `needle in hay` on strings. -/
def pyIn (needle hay : String) : Bool :=
  charsIn needle.toList hay.toList

/-- Python `str.lower()`, restricted to ASCII letters (the values it is
applied to are content-type header values, which are ASCII). -/
def asciiLower (s : String) : String :=
  String.mk (s.toList.map fun c =>
    if 65 ≤ c.toNat ∧ c.toNat ≤ 90 then Char.ofNat (c.toNat + 32) else c)

/-- The byte sequence of an ASCII string (used for concrete bodies). -/
def asciiBytes (s : String) : Bytes :=
  s.toList.map Char.toNat

/-! ### src/railway_app.py -/

/-- A FastAPI handler result without proxy state: the served body and
media type, or an `HTTPException` status. -/
inductive WebResult where
  | ok (data : Bytes) (mime : String)
  | httpError (status : Nat)
deriving DecidableEq

/-- `get_kpa_photo` of `src/railway_app.py`, paired with the number of
upstream requests issued.

The whole body sits in a `try` whose `except Exception` clause re-raises
everything as `HTTPException 500` — and FastAPI `HTTPException` itself
subclasses `Exception`, so the inner `HTTPException(500, "Response is
not an image")` and `HTTPException(404, "Photo not found")` raises are
both caught and re-wrapped as 500. A 200 answer is served as
`image/jpeg` when the declared content type contains `image` or the body
starts with the JPEG marker `FF D8 FF`; there is no cache. -/
def railway_get_kpa_photo (sessionCookie subdomainCookie : String)
    (key : String) (upstream : Upstream) : WebResult × Nat :=
  let headers : Headers :=
    [("Cookie", "6Pphk3dbK4Y-mvncorp=" ++ sessionCookie
        ++ "; last-subdomain=" ++ subdomainCookie),
     ("User-Agent", "Mozilla/5.0 (Windows NT 10.0; Win64; x64) AppleWebKit/537.36")]
  match upstream (kpaUploadUrl key) headers with
  | .timeout => (.httpError 500, 1)
  | .netError => (.httpError 500, 1)
  | .resp r =>
      if r.status = 200 then
        if pyIn "image" (asciiLower (r.contentType.getD ""))
            || bytesLead [0xff, 0xd8, 0xff] r.body then
          (.ok r.body "image/jpeg", 1)
        else (.httpError 500, 1)
      else (.httpError 500, 1)

/-! ### src/kpa_api_server.py -/

/-- A Flask response of `proxy_kpa_photo`: an error JSON identified by
its `error` code and HTTP status, or the streamed photo bytes. -/
inductive ApiResult where
  | jsonError (code : String) (status : Nat)
  | stream (data : Bytes) (mime : String)
deriving DecidableEq

/-- `proxy_kpa_photo` of `src/kpa_api_server.py`, paired with the number
of upstream requests issued. `photoKey` is `request.args.get('key')`
(`none` when absent); `if not photo_key` also rejects the empty string.
The session-cookie check sits before the `requests.get` call. -/
def proxy_kpa_photo (sessionCookie csrfToken : String)
    (photoKey : Option String) (upstream : Upstream) :
    ApiResult × Nat :=
  match photoKey with
  | none => (.jsonError "missing_parameter" 400, 0)
  | some k =>
      if k = "" then (.jsonError "missing_parameter" 400, 0)
      else if sessionCookie = "" then (.jsonError "no_session" 500, 0)
      else
        let headers : Headers :=
          [("Cookie", sessionCookie),
           ("User-Agent", "Mozilla/5.0 (Windows NT 10.0; Win64; x64) AppleWebKit/537.36 (KHTML, like Gecko) Chrome/139.0.0.0 Safari/537.36"),
           ("Referer", "https://mvncorp.kpaehs.com/forms/analyze/289228"),
           ("Accept", "image/webp,image/apng,image/*,*/*;q=0.8"),
           ("Accept-Language", "en-US,en;q=0.9"),
           ("Sec-Fetch-Dest", "image"),
           ("Sec-Fetch-Mode", "no-cors"),
           ("Sec-Fetch-Site", "same-origin")]
          ++ (if csrfToken ≠ "" then [("isc-csrf-token", csrfToken)] else [])
        match upstream (kpaUploadUrl k) headers with
        | .timeout => (.jsonError "photo_timeout" 408, 1)
        | .netError => (.jsonError "photo_request_failed" 502, 1)
        | .resp r =>
            if r.status = 200 then
              (.stream r.body (r.contentType.getD "image/jpeg"), 1)
            else (.jsonError "photo_fetch_failed" r.status, 1)

/-! ### src/kpa_photo_proxy_railway.py -/

/-- One entry of the `cache` dict of `kpa_photo_proxy_railway.py`:
`key -> (content_bytes, cached_time)`. There is no MIME field. -/
abbrev RailwayCache := List (String × (Bytes × Nat))

/-- The hard-coded `CACHE_TTL = 3600` of `kpa_photo_proxy_railway.py`. -/
def railwayCacheTtl : Nat := 3600

/-- The module-level state of `kpa_photo_proxy_railway.py`: the two
cookie globals `KPA_SESSION_COOKIE` and `KPA_SUBDOMAIN_COOKIE`, and the
`cache` dict. -/
structure RailwayState where
  sessionCookie : String
  subdomainCookie : String
  cache : RailwayCache
deriving DecidableEq

/-- Result of one call of the railway-variant `get_kpa_photo`. -/
structure RailwayServe where
  state : RailwayState
  result : WebResult
  fetches : Nat
deriving DecidableEq

/-- The headers `get_kpa_photo` of `kpa_photo_proxy_railway.py` sends. -/
def railwayHeaders (sessionCookie subdomainCookie : String) : Headers :=
  [("User-Agent", "Mozilla/5.0 (Windows NT 10.0; Win64; x64) AppleWebKit/537.36"),
   ("Cookie", "6Pphk3dbK4Y-mvncorp=" ++ sessionCookie
      ++ "; last-subdomain=" ++ subdomainCookie),
   ("Referer", "https://mvncorp.kpaehs.com/"),
   ("Accept", "image/webp,image/apng,image/*,*/*;q=0.8")]

/-- The `try` block of the railway-variant `get_kpa_photo`:
HTTP 200 stores `(content, now)` in the cache and serves the declared
content type (default `image/jpeg`); any non-200 raises `HTTPException`
inside the `try`, whose `except Exception` clause re-wraps it — like any
`requests` exception — as `HTTPException 500`. -/
def railwayProxyFetch (st : RailwayState) (key : String) (now : Nat)
    (upstream : Upstream) : RailwayServe :=
  match upstream (kpaUploadUrl key)
      (railwayHeaders st.sessionCookie st.subdomainCookie) with
  | .timeout => ⟨st, .httpError 500, 1⟩
  | .netError => ⟨st, .httpError 500, 1⟩
  | .resp r =>
      if r.status = 200 then
        ⟨{ st with cache := dictPut st.cache key (r.body, now) },
          .ok r.body (r.contentType.getD "image/jpeg"), 1⟩
      else ⟨st, .httpError 500, 1⟩

/-- `get_kpa_photo` of `src/kpa_photo_proxy_railway.py`. The hit check
runs outside the `try`; a fresh hit (`now - cached_time < CACHE_TTL`) is
served with the hard-coded media type `image/jpeg` and no upstream call;
a stale entry is deleted and the fetch path runs. -/
def railway_proxy_get_kpa_photo (st : RailwayState) (key : String)
    (now : Nat) (upstream : Upstream) : RailwayServe :=
  match dictFind st.cache key with
  | some (cachedData, cachedTime) =>
      if now - cachedTime < railwayCacheTtl then
        ⟨st, .ok cachedData "image/jpeg", 0⟩
      else
        railwayProxyFetch { st with cache := dictDrop st.cache key } key now upstream
  | none => railwayProxyFetch st key now upstream

/-! ### src/streamlit_csv_raffle.py — extract_key_from_tenant_url

Python strings are modelled as their byte sequences (`PyStr`). The
pieces of `urllib.parse` the function calls are modelled from CPython
3.11: `urlsplit` — leading-control stripping, tab/CR/LF removal, scheme
removal, netloc bracket validation with its raising `ValueError` path,
fragment/query extraction — then `parse_qs` and `unquote`. `unquote` is
modelled at the byte level (its `unquote_to_bytes` core): a `%hh`
escape with two hex digits becomes the byte `hh`; a `%` not followed by
two hex digits is kept verbatim. Two caveats of the byte model, both
confined to non-ASCII inputs and hence outside the ASCII domain the
universally quantified theorems below restrict to: the final UTF-8
`errors="replace"` decoding of unquoted bytes is the identity only on
valid UTF-8, and the NFKC netloc check of `urlsplit`, which can raise
only for a non-ASCII netloc, is not modelled. -/

/-- A Python string, as its byte sequence. -/
abbrev PyStr := List Nat

/-- Byte sequence of an ASCII Lean string literal. -/
def pyStr (s : String) : PyStr := s.toList.map Char.toNat

/-- An uncaught Python exception (opaque). -/
inductive PyExn where
  | exn
deriving DecidableEq

deriving instance DecidableEq for Except


/-- Is the byte an ASCII hex digit? -/
def isHexDigitByte (c : Nat) : Bool :=
  (48 ≤ c && c ≤ 57) || (97 ≤ c && c ≤ 102) || (65 ≤ c && c ≤ 70)

/-- Value of an ASCII hex digit. -/
def hexDigitVal (c : Nat) : Nat :=
  if 48 ≤ c && c ≤ 57 then c - 48
  else if 97 ≤ c && c ≤ 102 then c - 87
  else c - 55

/-- `urllib.parse.unquote` at the byte level. -/
def pyUnquote : PyStr → PyStr
  | [] => []
  | 37 :: h :: l :: rest =>
      if isHexDigitByte h && isHexDigitByte l then
        (hexDigitVal h * 16 + hexDigitVal l) :: pyUnquote rest
      else 37 :: pyUnquote (h :: l :: rest)
  | c :: rest => c :: pyUnquote rest

/-- `urllib.parse.unquote_plus`: replace `+` by a space, then unquote. -/
def pyUnquotePlus (s : PyStr) : PyStr :=
  pyUnquote (s.map fun c => if c = 43 then 32 else c)

/-- `needle in hay` for byte strings. -/
def bytesIn (needle : PyStr) : PyStr → Bool
  | [] => needle.isEmpty
  | c :: rest => bytesLead needle (c :: rest) || bytesIn needle rest

/-- Python `s.split(sep)` for a one-byte separator (never empty:
`"".split(sep) == [""]`). -/
def splitOnByte (sep : Nat) : PyStr → List PyStr
  | [] => [[]]
  | c :: rest =>
      match splitOnByte sep rest with
      | [] => [[]]
      | h :: t => if c = sep then [] :: h :: t else (c :: h) :: t

/-- Python `s.split(sep, 1)`: the parts before and after the first
occurrence of the separator, or `none` when it is absent. -/
def splitOnceByte (sep : Nat) : PyStr → Option (PyStr × PyStr)
  | [] => none
  | c :: rest =>
      if c = sep then some ([], rest)
      else (splitOnceByte sep rest).map fun p => (c :: p.1, p.2)

/-- `url.lstrip(WHATWG C0-control-or-space)`: strip leading bytes
`≤ 0x20`, the first preprocessing step of `urlsplit`. -/
def dropC0Space : PyStr → PyStr
  | [] => []
  | c :: rest => if c ≤ 32 then dropC0Space rest else c :: rest

/-- Removal of the unsafe URL bytes tab, CR and LF anywhere in the URL,
the second preprocessing step of `urlsplit`. -/
def removeUnsafeBytes (s : PyStr) : PyStr :=
  s.filter fun c => !(c == 9 || c == 13 || c == 10)

/-- Is the byte an ASCII letter? -/
def isAsciiAlpha (c : Nat) : Bool :=
  (65 ≤ c && c ≤ 90) || (97 ≤ c && c ≤ 122)

/-- Is the byte an ASCII decimal digit? -/
def isDigitByte (c : Nat) : Bool :=
  48 ≤ c && c ≤ 57

/-- A byte of `scheme_chars`: letters, digits, `+`, `-`, `.`. -/
def isSchemeByte (c : Nat) : Bool :=
  isAsciiAlpha c || isDigitByte c || c == 43 || c == 45 || c == 46

/-- Strip `scheme:` when the text before the first `:` is non-empty,
starts with an ASCII letter and has only scheme characters after it. -/
def dropScheme (url : PyStr) : PyStr :=
  match splitOnceByte 58 url with
  | none => url
  | some (before, after) =>
      match before with
      | [] => url
      | c0 :: rest =>
          if isAsciiAlpha c0 && rest.all isSchemeByte then after else url

/-- `_splitnetloc`: when the URL starts with `//`, the netloc is the
text from index 2 up to the first `/`, `?` or `#`. -/
def splitNetloc : PyStr → Option PyStr
  | 47 :: 47 :: rest =>
      some (rest.takeWhile fun c => !(c == 47 || c == 63 || c == 35))
  | _ => none

/-- `netloc.partition('[')[2].partition(']')[0]`: the text between the
first `[` and the next `]` (to its end when no `]` follows). -/
def bracketedHost (netloc : PyStr) : PyStr :=
  match splitOnceByte 91 netloc with
  | none => []
  | some (_, after) =>
      match splitOnceByte 93 after with
      | some (before, _) => before
      | none => after

/-- The IPvFuture shape `v<hex>+.<char>+` (regex
`\Av[a-fA-F0-9]+\..+\Z`; a newline cannot occur, having been removed
from the URL). -/
def isIpvFuture (h : PyStr) : Bool :=
  match h with
  | 118 :: rest =>
      let hexPart := rest.takeWhile isHexDigitByte
      !hexPart.isEmpty &&
        match rest.drop hexPart.length with
        | 46 :: tail => !tail.isEmpty
        | _ => false
  | _ => false

/-- Decimal value of a digit string. -/
def decimalVal (s : PyStr) : Nat :=
  s.foldl (fun a c => a * 10 + (c - 48)) 0

/-- One dotted-quad octet per `IPv4Address._parse_octet`: 1–3 decimal
digits, no leading zero except `0` itself, value at most 255. -/
def validIpv4Octet (s : PyStr) : Bool :=
  !s.isEmpty && decide (s.length ≤ 3) && s.all isDigitByte
    && (decide (s = [48]) || decide (s.head? ≠ some 48))
    && decide (decimalVal s ≤ 255)

/-- A textual IPv4 address: exactly four valid octets. -/
def validIpv4 (s : PyStr) : Bool :=
  match splitOnByte 46 s with
  | [a, b, c, d] =>
      validIpv4Octet a && validIpv4Octet b && validIpv4Octet c && validIpv4Octet d
  | _ => false

/-- One hextet per `IPv6Address._parse_hextet`: 1–4 hex digits. -/
def validHextet (s : PyStr) : Bool :=
  !s.isEmpty && decide (s.length ≤ 4) && s.all isHexDigitByte

/-- The core of `IPv6Address._ip_int_from_string` on the `:`-split part
list (after any IPv4 tail was replaced by two synthetic hextets): at
most one interior empty part (the `::`), an empty first or last part
only as half of a leading or trailing `::`, at most 7 explicit parts
beside a `::` (8 exactly when there is none), every explicit part a
valid hextet. -/
def validIpv6Core (parts : List PyStr) : Bool :=
  let n := parts.length
  let empties := (List.range n).filter fun i =>
    decide (1 ≤ i) && decide (i + 1 < n) && (parts.getD i []).isEmpty
  match empties with
  | [] =>
      decide (n = 8) && !(parts.getD 0 []).isEmpty
        && !(parts.getD (n - 1) []).isEmpty && parts.all validHextet
  | [k] =>
      let headEmpty := (parts.getD 0 []).isEmpty
      let lastEmpty := (parts.getD (n - 1) []).isEmpty
      let hi := if headEmpty then k - 1 else k
      let lo := (n - k - 1) - (if lastEmpty then 1 else 0)
      (!headEmpty || decide (k = 1))
        && (!lastEmpty || decide (n - k - 1 = 1))
        && decide (hi + lo ≤ 7)
        && (parts.take hi).all validHextet
        && (parts.drop (n - lo)).all validHextet
  | _ => false

/-- A textual IPv6 address without scope: split on `:` (at least 3
parts); a last part containing `.` must be a valid IPv4 address and
counts as two hextets; at most 9 parts after that replacement. -/
def validIpv6Addr (s : PyStr) : Bool :=
  let parts := splitOnByte 58 s
  decide (3 ≤ parts.length) &&
    match parts.getLast? with
    | none => false
    | some lastP =>
        if lastP.contains 46 then
          validIpv4 lastP
            && decide (parts.length + 1 ≤ 9)
            && validIpv6Core (parts.dropLast ++ [[48], [48]])
        else
          decide (parts.length ≤ 9) && validIpv6Core parts

/-- A textual IPv6 address with an optional `%scope` (the scope must be
non-empty and contain no further `%`). -/
def validIpv6 (s : PyStr) : Bool :=
  match splitOnceByte 37 s with
  | none => validIpv6Addr s
  | some (addr, scope) =>
      !scope.isEmpty && !(scope.contains 37) && validIpv6Addr addr

/-- `_check_bracketed_host` (CPython 3.11): a host starting with `v` is
checked against the IPvFuture shape; any other bracketed host must be a
valid IPv6 address (`ip_address` accepts IPv4 too, but an IPv4 address
in brackets is then rejected, so only IPv6 passes). `false` where
CPython raises. -/
def bracketedHostOk (h : PyStr) : Bool :=
  match h with
  | 118 :: _ => isIpvFuture h
  | _ => validIpv6 h

/-- The bracket validation `urlsplit` performs on the netloc: a `[`
without `]` (or conversely) raises `Invalid IPv6 URL`; when both are
present the bracketed host must pass `_check_bracketed_host`. `false`
where CPython raises. -/
def netlocOk (netloc : PyStr) : Bool :=
  let hasL := netloc.contains 91
  let hasR := netloc.contains 93
  if hasL != hasR then false
  else if hasL && hasR then bracketedHostOk (bracketedHost netloc)
  else true

/-- Fragment split at the first `#`, then the query is everything after
the first `?` of the remainder. (In `urlsplit` these splits run on the
text after the netloc, which by construction contains no `#` or `?`, so
splitting the whole string is equivalent.) -/
def queryOf (u : PyStr) : PyStr :=
  let noFrag :=
    match splitOnceByte 35 u with
    | some p => p.1
    | none => u
  match splitOnceByte 63 noFrag with
  | some p => p.2
  | none => []

/-- The `query` component of `urlparse(url)` in CPython 3.11, with its
raising path: strip leading control-or-space bytes, remove every
tab/CR/LF, drop a valid `scheme:`; when the remainder starts with `//`,
validate the netloc brackets (`.error` models the `ValueError` the
`except` clause of the caller will catch); then extract the query. The
NFKC netloc check, which can raise only for a non-ASCII netloc, is not
modelled — theorems quantifying over URLs restrict to ASCII inputs. -/
def urlsplitQuery (url : PyStr) : Except PyExn PyStr :=
  let u := dropScheme (removeUnsafeBytes (dropC0Space url))
  match splitNetloc u with
  | some netloc => if netlocOk netloc then .ok (queryOf u) else .error .exn
  | none => .ok (queryOf u)

/-- `urllib.parse.parse_qsl(qs)` with default arguments: split on `&`;
skip empty fields; skip fields without `=` and fields with an empty
value (`keep_blank_values=False`); plus-and-percent-decode each name
and value. -/
def parse_qsl (qs : PyStr) : List (PyStr × PyStr) :=
  (splitOnByte 38 qs).filterMap fun nv =>
    if nv = [] then none
    else
      match splitOnceByte 61 nv with
      | none => none
      | some (n, v) =>
          if v = [] then none
          else some (pyUnquotePlus n, pyUnquotePlus v)

/-- `parse_qs(qs)[name]`: the values for `name` in field order (`[]`
when the name is absent from the dict). -/
def parse_qs_get (qs : PyStr) (name : PyStr) : List PyStr :=
  (parse_qsl qs).filterMap fun p => if p.1 = name then some p.2 else none

/-- The body of the `try` block of `extract_key_from_tenant_url`:
`q = parse_qs(urlparse(url).query)` — when `urlparse` raises (a
bracket-malformed netloc), the raise propagates to the handler as
`.error` — then `None` when `key` is absent or has no values, else
`unquote(q["key"][0])`. -/
def extract_key_body (url : PyStr) : Except PyExn (Option PyStr) :=
  match urlsplitQuery url with
  | .error e => .error e
  | .ok q =>
      match parse_qs_get q (pyStr "key") with
      | [] => .ok none
      | v :: _ => .ok (some (pyUnquote v))

/-- `extract_key_from_tenant_url` of `src/streamlit_csv_raffle.py`,
with the observable raise behavior made explicit: the result is
`Except.ok` of the returned value, and the `except Exception` clause
maps any raise from the body to `None`. The `isinstance(url, str)`
guard is subsumed by typing the argument as a string. -/
def extract_key_from_tenant_url (url : PyStr) : Except PyExn (Option PyStr) :=
  if bytesIn (pyStr "get-upload") url then
    match extract_key_body url with
    | .ok r => .ok r
    | .error _ => .ok none
  else .ok none

/-! ### Image signatures, modelled from the spec -/

/-- Modelled from the spec: the recognized image magic-byte signatures
(JPEG `FF D8 FF`, PNG `89 50 4E 47 0D 0A 1A 0A`, GIF `GIF87a`/`GIF89a`,
WebP `RIFF....WEBP`). No function under `src/` implements this check; it
is stated here only to express what the spec requires of a `Success`
classification, to be compared with what the handlers actually do. -/
def specImageMagic (b : Bytes) : Bool :=
  bytesLead [0xff, 0xd8, 0xff] b
  || bytesLead [0x89, 0x50, 0x4e, 0x47, 0x0d, 0x0a, 0x1a, 0x0a] b
  || bytesLead [0x47, 0x49, 0x46, 0x38, 0x37, 0x61] b
  || bytesLead [0x47, 0x49, 0x46, 0x38, 0x39, 0x61] b
  || (bytesLead [0x52, 0x49, 0x46, 0x46] b
      && (b.drop 8).take 4 == [0x57, 0x45, 0x42, 0x50])

/-! ### Further concrete fixtures -/

/-- A vendor login page body: an HTML document. -/
def htmlBytes : Bytes := asciiBytes "<html><body>Login</body></html>"

/-- An upstream whose session has expired: HTTP 200 with the HTML login
page, declared `text/html`. -/
def upHtml : Upstream :=
  fun _ _ => .resp ⟨200, some "text/html", htmlBytes⟩

/-- An upstream answering HTTP 200 with the HTML login page but a
(mislabelling) `image/jpeg` content type. -/
def upHtmlAsImage : Upstream :=
  fun _ _ => .resp ⟨200, some "image/jpeg", htmlBytes⟩

/-- An upstream answering HTTP 429. -/
def up429 : Upstream :=
  fun _ _ => .resp ⟨429, some "text/html", asciiBytes "Too Many Requests"⟩

/-- A process state with neither `KPA_COOKIE` nor `KPA_BEARER` set. -/
def stNoCreds : ProcessState := ⟨"", "", "WinnersCardBot/1.0", 3600, []⟩

/-- Leading bytes of a PNG file (the 8-byte PNG signature). -/
def pngBytes : Bytes := [0x89, 0x50, 0x4e, 0x47, 0x0d, 0x0a, 0x1a, 0x0a, 0, 0]

/-- An upstream answering 200 with a PNG body declared `image/png`. -/
def upPng : Upstream :=
  fun _ _ => .resp ⟨200, some "image/png", pngBytes⟩

/-- A railway-variant state with an empty cache. -/
def rst0 : RailwayState := ⟨"sess", "sub", []⟩

theorem dictFind_dictDrop_self {α : Type} (c : List (String × α)) (key : String) :
    dictFind (dictDrop c key) key = none := by
  induction c with
  | nil => rfl
  | cons p rest ih =>
      obtain ⟨k, v⟩ := p
      by_cases h : k = key
      · simpa [dictDrop, h] using ih
      · simpa [dictDrop, dictFind, h] using ih

theorem dictFind_append_right {α : Type} (l₁ l₂ : List (String × α)) (key : String)
    (h : dictFind l₁ key = none) :
    dictFind (l₁ ++ l₂) key = dictFind l₂ key := by
  induction l₁ with
  | nil => rfl
  | cons p rest ih =>
      obtain ⟨k, v⟩ := p
      by_cases hk : k = key
      · simp [dictFind, hk] at h
      · simp only [dictFind, hk, if_false, List.cons_append] at h ⊢
        exact ih h

theorem dictFind_dictPut_self {α : Type} (c : List (String × α)) (key : String) (v : α) :
    dictFind (dictPut c key v) key = some v := by
  unfold dictPut
  rw [dictFind_append_right _ _ _ (dictFind_dictDrop_self c key)]
  simp [dictFind]

/-! ### Helper lemmas about the cache and the handler -/

theorem kpa_photo_of_hit {st : ProcessState} {key : String} {now : Nat}
    {up : Upstream} {hit : Bytes × String} {c₁ : Cache}
    (h : cacheGet st.cache key now = (some hit, c₁)) :
    kpa_photo st key now up = ⟨{ st with cache := c₁ }, .ok hit.1 hit.2 "HIT", 0⟩ := by
  unfold kpa_photo
  rw [h]

theorem kpa_photo_of_miss {st : ProcessState} {key : String} {now : Nat}
    {up : Upstream} {c₁ : Cache}
    (h : cacheGet st.cache key now = (none, c₁)) :
    kpa_photo st key now up = kpaPhotoFetch st key now up c₁ := by
  unfold kpa_photo
  rw [h]

theorem cacheGet_cachePut_fresh (c : Cache) (key : String) (data : Bytes)
    (mime : String) (t0 ttl t : Nat) (h : t ≤ t0 + ttl) :
    cacheGet (cachePut c key data mime t0 ttl) key t
      = (some (data, mime), cachePut c key data mime t0 ttl) := by
  unfold cacheGet cachePut
  rw [dictFind_dictPut_self]
  simp [Nat.not_lt.mpr h]

theorem cacheGet_cachePut_expired (c : Cache) (key : String) (data : Bytes)
    (mime : String) (t0 ttl t : Nat) (h : t0 + ttl < t) :
    cacheGet (cachePut c key data mime t0 ttl) key t
      = (none, dictDrop (cachePut c key data mime t0 ttl) key) := by
  unfold cacheGet cachePut
  rw [dictFind_dictPut_self]
  simp [h]

/-- If a call to `kpa_photo` returned `X-Cache: MISS` with `data`/`mime`,
then the state it left holds exactly the fresh cache entry for `key`. -/
theorem kpa_photo_miss_state {st : ProcessState} {key : String} {t0 : Nat}
    {up : Upstream} {data : Bytes} {mime : String}
    (hmiss : (kpa_photo st key t0 up).result = .ok data mime "MISS") :
    ∃ c₁ : Cache,
      (kpa_photo st key t0 up).state
        = { st with cache := cachePut c₁ key data mime t0 st.ttl } := by
  rcases hget : cacheGet st.cache key t0 with ⟨res, c₁⟩
  cases res with
  | some hit =>
      rw [kpa_photo_of_hit hget] at hmiss
      injection hmiss with h₁ h₂ h₃
      exact absurd h₃ (by decide)
  | none =>
      rw [kpa_photo_of_miss hget] at hmiss ⊢
      unfold kpaPhotoFetch at hmiss ⊢
      cases hup : up (kpaUploadUrl key) (authHeaders st.cookie st.bearer st.userAgent) with
      | timeout => rw [hup] at hmiss; simp at hmiss
      | netError => rw [hup] at hmiss; simp at hmiss
      | resp r =>
          rw [hup] at hmiss
          dsimp only at hmiss ⊢
          by_cases h404 : r.status = 404
          · simp [h404] at hmiss
          · by_cases herr : 400 ≤ r.status ∧ r.status < 600
            · simp [h404, herr] at hmiss
            · rw [if_neg h404, if_neg herr] at hmiss ⊢
              dsimp only at hmiss ⊢
              injection hmiss with h₁ h₂ h₃
              exact ⟨c₁, by rw [← h₁, ← h₂]⟩

theorem kpaPhotoFetch_fetches (st : ProcessState) (key : String) (now : Nat)
    (up : Upstream) (c₁ : Cache) :
    (kpaPhotoFetch st key now up c₁).fetches = 1 := by
  unfold kpaPhotoFetch
  cases up (kpaUploadUrl key) (authHeaders st.cookie st.bearer st.userAgent) with
  | timeout => rfl
  | netError => rfl
  | resp r =>
      dsimp only
      split
      · rfl
      · split
        · rfl
        · rfl

theorem cacheGet_none_find {c : Cache} {key : String} {t : Nat} {c₁ : Cache}
    (h : cacheGet c key t = (none, c₁)) : dictFind c₁ key = none := by
  unfold cacheGet at h
  cases hf : dictFind c key with
  | none =>
      rw [hf] at h
      simp only [Prod.mk.injEq] at h
      rw [← h.2]
      exact hf
  | some e =>
      rw [hf] at h
      dsimp only at h
      by_cases ht : t > e.exp
      · rw [if_pos ht] at h
        simp only [Prod.mk.injEq] at h
        rw [← h.2]
        exact dictFind_dictDrop_self c key
      · rw [if_neg ht] at h
        simp only [Prod.mk.injEq] at h
        exact absurd h.1 (by simp)

/-! ### Claim C1 -/

/-- Claim C1 (the code contradicts it): on HTTP 200 whose body is the
HTML login page, `kpa_photo` caches the body (entry expiring at
1000 + 3600) and serves it as an `X-Cache: MISS` success with the HTML
MIME type, although the body starts with the `<html` marker and matches
no recognized image signature; and `railway_app.get_kpa_photo` serves
the same HTML body as a success whenever the declared content type
contains `image`. Nothing is classified `AuthExpired` anywhere. -/
theorem html_login_cached_as_success :
    (kpa_photo st0 "k" 1000 upHtml).result = .ok htmlBytes "text/html" "MISS"
    ∧ dictFind (kpa_photo st0 "k" 1000 upHtml).state.cache "k"
        = some ⟨4600, htmlBytes, "text/html"⟩
    ∧ bytesLead (asciiBytes "<html") htmlBytes = true
    ∧ specImageMagic htmlBytes = false
    ∧ railway_get_kpa_photo "s" "d" "k" upHtmlAsImage
        = (.ok htmlBytes "image/jpeg", 1) := by
  decide

/-! ### Claim C4 -/

/-- Counterexample to claim C4 as stated: with neither credential
configured, `kpa_photo` does not return a typed auth error with zero
network calls — it issues the upstream fetch anyway (with a bare
User-Agent header) and forwards a 200 answer as a success. -/
theorem no_credentials_still_fetches :
    (kpa_photo stNoCreds "k" 0 upJpeg).fetches = 1
    ∧ (kpa_photo stNoCreds "k" 0 upJpeg).result = .ok jpegBytes "image/jpeg" "MISS"
    ∧ authHeaders stNoCreds.cookie stNoCreds.bearer stNoCreds.userAgent
        = [("User-Agent", "WinnersCardBot/1.0")] := by
  decide

/-- Claim C4 as amended: only `kpa_api_server.proxy_kpa_photo` checks
credentials, and it does check before any upstream I/O — an unset
session cookie yields the typed `no_session` error with zero network
calls; `kpa_photo_proxy.kpa_photo` never checks credentials: on a cache
miss it issues the upstream fetch whatever the configuration. -/
theorem auth_check_before_io_amended
    (csrf key : String) (up up' : Upstream) (st : ProcessState) (t : Nat)
    (hkey : key ≠ "")
    (hmiss : (cacheGet st.cache key t).1 = none) :
    proxy_kpa_photo "" csrf (some key) up = (.jsonError "no_session" 500, 0)
    ∧ (kpa_photo st key t up').fetches = 1 := by
  constructor
  · unfold proxy_kpa_photo
    dsimp only
    rw [if_neg hkey, if_pos rfl]
  · rcases hget : cacheGet st.cache key t with ⟨res, c₁⟩
    rw [hget] at hmiss
    dsimp only at hmiss
    subst hmiss
    rw [kpa_photo_of_miss hget]
    exact kpaPhotoFetch_fetches st key t up' c₁

/-- Witness for the amended C4 at a concrete input. -/
theorem auth_check_before_io_amended_witness :
    ("k" : String) ≠ ""
    ∧ (cacheGet st0.cache "k" 0).1 = none
    ∧ proxy_kpa_photo "" "" (some "k") upJpeg = (.jsonError "no_session" 500, 0)
    ∧ (kpa_photo st0 "k" 0 upJpeg).fetches = 1 :=
  ⟨by decide, by decide,
    (auth_check_before_io_amended "" "k" upJpeg upJpeg st0 0 (by decide) (by decide)).1,
    (auth_check_before_io_amended "" "k" upJpeg upJpeg st0 0 (by decide) (by decide)).2⟩

/-! ### Claim C5 -/

/-- Counterexample to claim C5 as stated: an upstream 429 is not
returned as a 429 with a Retry-After hint — `raise_for_status` raises
`HTTPError` and the handler converts it to `HTTPException 502`. -/
theorem rate_limited_counterexample :
    (kpa_photo st0 "k" 0 up429).result = .httpError 502
    ∧ KpaResult.httpError 502 ≠ KpaResult.httpError 429 := by
  decide

/-- Claim C5 as amended: a 429 upstream answer yields `HTTPException
502` (the generic fetch-failed path, with no Retry-After hint); one
fetch is issued and no cache write occurs for that key. -/
theorem rate_limited_maps_to_502
    (st : ProcessState) (key : String) (t : Nat)
    (up : Upstream) (r : UpstreamResponse)
    (hmiss : (cacheGet st.cache key t).1 = none)
    (hup : up (kpaUploadUrl key) (authHeaders st.cookie st.bearer st.userAgent)
      = .resp r)
    (h429 : r.status = 429) :
    (kpa_photo st key t up).result = .httpError 502
    ∧ (kpa_photo st key t up).fetches = 1
    ∧ dictFind (kpa_photo st key t up).state.cache key = none := by
  rcases hget : cacheGet st.cache key t with ⟨res, c₁⟩
  rw [hget] at hmiss
  dsimp only at hmiss
  subst hmiss
  rw [kpa_photo_of_miss hget]
  unfold kpaPhotoFetch
  rw [hup]
  dsimp only
  rw [if_neg (by omega : ¬ r.status = 404),
    if_pos (⟨by omega, by omega⟩ : 400 ≤ r.status ∧ r.status < 600)]
  exact ⟨rfl, rfl, cacheGet_none_find hget⟩

/-- Witness for the amended C5 at a concrete input. -/
theorem rate_limited_maps_to_502_witness :
    (cacheGet st0.cache "k" 0).1 = none
    ∧ (kpa_photo st0 "k" 0 up429).result = .httpError 502
    ∧ (kpa_photo st0 "k" 0 up429).fetches = 1
    ∧ dictFind (kpa_photo st0 "k" 0 up429).state.cache "k" = none := by
  have h := rate_limited_maps_to_502 st0 "k" 0 up429
    ⟨429, some "text/html", asciiBytes "Too Many Requests"⟩ (by decide) rfl rfl
  exact ⟨by decide, h.1, h.2.1, h.2.2⟩

/-! ### Claim C2 -/

/-- Claim C2: if the first `serve` call for a key is a fresh fetch stored
in the cache (`X-Cache: MISS`), a second call for the same key within the
TTL window performs zero additional upstream fetches, reports
`X-Cache: HIT`, returns the cached bytes and MIME type, and leaves the
state unchanged — regardless of what the upstream would answer now. -/
theorem serve_cached_second_call_hit
    (st : ProcessState) (key : String) (t0 t1 : Nat)
    (up up' : Upstream) (data : Bytes) (mime : String)
    (hmiss : (kpa_photo st key t0 up).result = .ok data mime "MISS")
    (ht : t1 ≤ t0 + st.ttl) :
    kpa_photo (kpa_photo st key t0 up).state key t1 up'
      = ⟨(kpa_photo st key t0 up).state, .ok data mime "HIT", 0⟩ := by
  obtain ⟨c₁, hstate⟩ := kpa_photo_miss_state hmiss
  rw [hstate]
  unfold kpa_photo
  dsimp only
  rw [cacheGet_cachePut_fresh c₁ key data mime t0 st.ttl t1 ht]

/-- Witness for C2 at a concrete input: empty cache, upstream answering
200 with a JPEG, both calls at the same clock. -/
theorem serve_cached_second_call_hit_witness :
    (kpa_photo st0 "k" 100 upJpeg).result = .ok jpegBytes "image/jpeg" "MISS"
    ∧ (100 : Nat) ≤ 100 + st0.ttl
    ∧ kpa_photo (kpa_photo st0 "k" 100 upJpeg).state "k" 100 upJpeg
        = ⟨(kpa_photo st0 "k" 100 upJpeg).state, .ok jpegBytes "image/jpeg" "HIT", 0⟩ :=
  ⟨by decide, by decide,
    serve_cached_second_call_hit st0 "k" 100 100 upJpeg upJpeg jpegBytes
      "image/jpeg" (by decide) (by decide)⟩

/-! ### Claim C3 -/

/-- Claim C3: an entry stored at `t0` carries `expiresAt = t0 + TTL`; a
read at or before `expiresAt` returns the stored bytes and MIME type; a
read strictly after `expiresAt` returns `none` and evicts the entry on
that read, and the next `serve` for that key performs one fresh upstream
fetch, reported `X-Cache: MISS` on a 200 answer. -/
theorem cache_entry_ttl_expiry
    (cookie bearer ua : String) (ttl : Nat) (c : Cache) (key : String)
    (data : Bytes) (mime : String) (t0 t : Nat) :
    dictFind (cachePut c key data mime t0 ttl) key
        = some ⟨t0 + ttl, data, mime⟩
    ∧ (t ≤ t0 + ttl →
        cacheGet (cachePut c key data mime t0 ttl) key t
          = (some (data, mime), cachePut c key data mime t0 ttl))
    ∧ (t0 + ttl < t →
        cacheGet (cachePut c key data mime t0 ttl) key t
            = (none, dictDrop (cachePut c key data mime t0 ttl) key)
        ∧ dictFind (dictDrop (cachePut c key data mime t0 ttl) key) key = none
        ∧ ∀ up : Upstream,
            (kpa_photo ⟨cookie, bearer, ua, ttl, cachePut c key data mime t0 ttl⟩
                key t up).fetches = 1
            ∧ ∀ r : UpstreamResponse,
                up (kpaUploadUrl key) (authHeaders cookie bearer ua) = .resp r → r.status = 200 →
                (kpa_photo ⟨cookie, bearer, ua, ttl, cachePut c key data mime t0 ttl⟩
                    key t up).result
                  = .ok r.body (r.contentType.getD "image/jpeg") "MISS") := by
  refine ⟨dictFind_dictPut_self c key _,
    fun h => cacheGet_cachePut_fresh c key data mime t0 ttl t h,
    fun h => ?_⟩
  have hexp := cacheGet_cachePut_expired c key data mime t0 ttl t h
  refine ⟨hexp, dictFind_dictDrop_self _ key, fun up => ?_⟩
  have hserve :=
    @kpa_photo_of_miss ⟨cookie, bearer, ua, ttl, cachePut c key data mime t0 ttl⟩
      key t up (dictDrop (cachePut c key data mime t0 ttl) key) hexp
  rw [hserve]
  unfold kpaPhotoFetch
  dsimp only
  cases hup : up (kpaUploadUrl key) (authHeaders cookie bearer ua) with
  | timeout =>
      exact ⟨rfl, fun r hr _ => FetchOutcome.noConfusion hr⟩
  | netError =>
      exact ⟨rfl, fun r hr _ => FetchOutcome.noConfusion hr⟩
  | resp r' =>
      constructor
      · dsimp only
        split
        · rfl
        · split
          · rfl
          · rfl
      · intro r hr h200
        injection hr with hr'
        subst hr'
        dsimp only
        rw [if_neg (by omega : ¬ r'.status = 404),
          if_neg (by rw [h200]; decide : ¬ (400 ≤ r'.status ∧ r'.status < 600))]

/-- Witness for C3 at a concrete input: entry stored at `t0 = 10` with
TTL 3600, read at 3610 (still fresh) and 3611 (expired). -/
theorem cache_entry_ttl_expiry_witness :
    dictFind (cachePut [] "k" jpegBytes "image/jpeg" 10 3600) "k"
        = some ⟨3610, jpegBytes, "image/jpeg"⟩
    ∧ cacheGet (cachePut [] "k" jpegBytes "image/jpeg" 10 3600) "k" 3610
        = (some (jpegBytes, "image/jpeg"), cachePut [] "k" jpegBytes "image/jpeg" 10 3600)
    ∧ cacheGet (cachePut [] "k" jpegBytes "image/jpeg" 10 3600) "k" 3611
        = (none, dictDrop (cachePut [] "k" jpegBytes "image/jpeg" 10 3600) "k")
    ∧ (kpa_photo ⟨"c", "", "ua", 3600, cachePut [] "k" jpegBytes "image/jpeg" 10 3600⟩
          "k" 3611 upJpeg).fetches = 1
    ∧ (kpa_photo ⟨"c", "", "ua", 3600, cachePut [] "k" jpegBytes "image/jpeg" 10 3600⟩
          "k" 3611 upJpeg).result = .ok jpegBytes "image/jpeg" "MISS" :=
  ⟨(cache_entry_ttl_expiry "c" "" "ua" 3600 [] "k" jpegBytes "image/jpeg" 10 3610).1,
    (cache_entry_ttl_expiry "c" "" "ua" 3600 [] "k" jpegBytes "image/jpeg" 10 3610).2.1
      (by decide),
    ((cache_entry_ttl_expiry "c" "" "ua" 3600 [] "k" jpegBytes "image/jpeg" 10 3611).2.2
      (by decide)).1,
    (((cache_entry_ttl_expiry "c" "" "ua" 3600 [] "k" jpegBytes "image/jpeg" 10 3611).2.2
      (by decide)).2.2 upJpeg).1,
    (((cache_entry_ttl_expiry "c" "" "ua" 3600 [] "k" jpegBytes "image/jpeg" 10 3611).2.2
      (by decide)).2.2 upJpeg).2 ⟨200, some "image/jpeg", jpegBytes⟩ rfl rfl⟩

/-! ### Claims C9 and C10 -/

theorem kpa_photo_state_eq (st : ProcessState) (key : String) (now : Nat)
    (up : Upstream) :
    ∃ c : Cache, (kpa_photo st key now up).state = { st with cache := c } := by
  rcases hget : cacheGet st.cache key now with ⟨res, c₁⟩
  cases res with
  | some hit => exact ⟨c₁, by rw [kpa_photo_of_hit hget]⟩
  | none =>
      rw [kpa_photo_of_miss hget]
      unfold kpaPhotoFetch
      cases up (kpaUploadUrl key) (authHeaders st.cookie st.bearer st.userAgent) with
      | timeout => exact ⟨c₁, rfl⟩
      | netError => exact ⟨c₁, rfl⟩
      | resp r =>
          dsimp only
          split
          · exact ⟨c₁, rfl⟩
          · split
            · exact ⟨c₁, rfl⟩
            · exact ⟨cachePut c₁ key r.body (r.contentType.getD "image/jpeg") now st.ttl, rfl⟩

theorem railwayProxyFetch_state_eq (st : RailwayState) (key : String)
    (now : Nat) (up : Upstream) :
    ∃ c : RailwayCache,
      (railwayProxyFetch st key now up).state = { st with cache := c } := by
  unfold railwayProxyFetch
  cases up (kpaUploadUrl key) (railwayHeaders st.sessionCookie st.subdomainCookie) with
  | timeout => exact ⟨st.cache, rfl⟩
  | netError => exact ⟨st.cache, rfl⟩
  | resp r =>
      dsimp only
      split
      · exact ⟨dictPut st.cache key (r.body, now), rfl⟩
      · exact ⟨st.cache, rfl⟩

theorem railway_proxy_state_eq (st : RailwayState) (key : String)
    (now : Nat) (up : Upstream) :
    ∃ c : RailwayCache,
      (railway_proxy_get_kpa_photo st key now up).state = { st with cache := c } := by
  unfold railway_proxy_get_kpa_photo
  cases hf : dictFind st.cache key with
  | none => exact railwayProxyFetch_state_eq st key now up
  | some p =>
      obtain ⟨cachedData, cachedTime⟩ := p
      dsimp only
      split
      · exact ⟨st.cache, rfl⟩
      · exact railwayProxyFetch_state_eq { st with cache := dictDrop st.cache key } key now up

/-- Claim C9: no request mutates the configured credentials. After any
`kpa_photo` call the `KPA_COOKIE`, `KPA_BEARER` and `USER_AGENT` globals
are unchanged, and after any railway-variant `get_kpa_photo` call the
`KPA_SESSION_COOKIE` and `KPA_SUBDOMAIN_COOKIE` globals are unchanged;
only the cache component of the module state can differ. -/
theorem serve_never_mutates_credentials
    (st : ProcessState) (rst : RailwayState) (key : String) (now : Nat)
    (up up' : Upstream) :
    ((kpa_photo st key now up).state.cookie = st.cookie
      ∧ (kpa_photo st key now up).state.bearer = st.bearer
      ∧ (kpa_photo st key now up).state.userAgent = st.userAgent
      ∧ (kpa_photo st key now up).state.ttl = st.ttl)
    ∧ ((railway_proxy_get_kpa_photo rst key now up').state.sessionCookie
          = rst.sessionCookie
      ∧ (railway_proxy_get_kpa_photo rst key now up').state.subdomainCookie
          = rst.subdomainCookie) := by
  obtain ⟨c, hc⟩ := kpa_photo_state_eq st key now up
  obtain ⟨c', hc'⟩ := railway_proxy_state_eq rst key now up'
  rw [hc, hc']
  exact ⟨⟨rfl, rfl, rfl, rfl⟩, rfl, rfl⟩

/-- Claim C10: the railway-variant cache stores only `(bytes, timestamp)`
— no MIME type — so every cache hit is served as `image/jpeg`: a first
(miss) fetch whose 200 answer declares `image/png` is served with MIME
`image/png`, and a second call for the same key within the TTL serves
the same bytes with MIME `image/jpeg` and zero upstream fetches. -/
theorem railway_cache_hit_always_jpeg
    (st : RailwayState) (key : String) (t0 t1 : Nat) (up up' : Upstream)
    (r : UpstreamResponse)
    (hmiss : dictFind st.cache key = none)
    (hup : up (kpaUploadUrl key) (railwayHeaders st.sessionCookie st.subdomainCookie)
      = .resp r)
    (h200 : r.status = 200)
    (hpng : r.contentType = some "image/png")
    (hfresh : t1 - t0 < railwayCacheTtl) :
    railway_proxy_get_kpa_photo st key t0 up
      = ⟨{ st with cache := dictPut st.cache key (r.body, t0) },
          .ok r.body "image/png", 1⟩
    ∧ railway_proxy_get_kpa_photo
        { st with cache := dictPut st.cache key (r.body, t0) } key t1 up'
      = ⟨{ st with cache := dictPut st.cache key (r.body, t0) },
          .ok r.body "image/jpeg", 0⟩ := by
  constructor
  · unfold railway_proxy_get_kpa_photo
    rw [hmiss]
    unfold railwayProxyFetch
    rw [hup]
    dsimp only
    rw [if_pos h200, hpng]
    rfl
  · unfold railway_proxy_get_kpa_photo
    dsimp only
    rw [dictFind_dictPut_self]
    dsimp only
    rw [if_pos hfresh]

/-- Witness for C10 at a concrete input: empty cache, upstream answering
200 with a PNG declared `image/png`; calls at clocks 0 and 10. -/
theorem railway_cache_hit_always_jpeg_witness :
    railway_proxy_get_kpa_photo rst0 "k" 0 upPng
      = ⟨{ rst0 with cache := dictPut rst0.cache "k" (pngBytes, 0) },
          .ok pngBytes "image/png", 1⟩
    ∧ railway_proxy_get_kpa_photo
        { rst0 with cache := dictPut rst0.cache "k" (pngBytes, 0) } "k" 10 upPng
      = ⟨{ rst0 with cache := dictPut rst0.cache "k" (pngBytes, 0) },
          .ok pngBytes "image/jpeg", 0⟩ :=
  railway_cache_hit_always_jpeg rst0 "k" 0 10 upPng upPng
    ⟨200, some "image/png", pngBytes⟩ (by decide) rfl rfl rfl (by decide)

/-! ### Claims C6, C7, C8 -/

/-- Counterexample to claim C7 as stated: the bare non-URL key
`abc.jpg` is not returned unchanged — it yields `None`. -/
theorem extract_key_bare_counterexample :
    extract_key_from_tenant_url (pyStr "abc.jpg") = .ok none
    ∧ (Except.ok none : Except PyExn (Option PyStr))
        ≠ .ok (some (pyStr "abc.jpg")) := by
  decide

/-- Claim C7 as amended: every reference without the `get-upload`
substring — non-empty bare non-URL keys included — yields `None`; no
reference is ever returned unchanged as a bare key. -/
theorem extract_key_no_bare_passthrough (s : PyStr)
    (h : bytesIn (pyStr "get-upload") s = false) :
    extract_key_from_tenant_url s = .ok none := by
  unfold extract_key_from_tenant_url
  rw [h]
  rfl

/-- Witness for the amended C7 at a concrete bare key. -/
theorem extract_key_no_bare_passthrough_witness :
    bytesIn (pyStr "get-upload") (pyStr "xyz-key-77") = false
    ∧ extract_key_from_tenant_url (pyStr "xyz-key-77") = .ok none :=
  ⟨by decide, extract_key_no_bare_passthrough (pyStr "xyz-key-77") (by decide)⟩

/-- Claim C8: `extract_key_from_tenant_url` is total and never raises:
for every input string it returns a value — a key or `None` — and never
propagates an exception to its caller. -/
theorem extract_key_never_throws (url : PyStr) :
    ∃ r : Option PyStr, extract_key_from_tenant_url url = .ok r := by
  unfold extract_key_from_tenant_url
  split
  · cases hb : extract_key_body url with
    | ok r => exact ⟨r, rfl⟩
    | error e => exact ⟨none, rfl⟩
  · exact ⟨none, rfl⟩

end RaffleProxy
